import Mathlib

/-
Verification of the property-listing cache-aside layer.

Shallow embedding of the Python source:
  properties/utils.py  : get_all_properties, invalidate_properties_cache,
                         get_cache_stats
  properties/views.py  : property_list, invalidate_cache

The Django cache backend is modelled as an association list from string
keys to stored values together with the timeout passed to cache.set.
The persistent store (Property.objects) is modelled as a list of
Property records in store order.  Machine state is passed explicitly:
each stateful operation takes the cache (and the store where it reads
it) and returns its result together with the new cache.
-/

namespace PropertyListings

/-- A property record: the six scalar fields projected by the source
query `Property.objects.all().values(...)` in utils.py. -/
structure Property where
  id : Nat
  title : String
  description : String
  price : Int
  location : String
  created_at : Nat
deriving DecidableEq, Repr

/-- The cache backend: entries mapping a key to the stored value and the
timeout given to cache.set.  The first entry with a key shadows later
ones; cache_set removes stale entries so duplicates never arise from
the modelled operations. -/
abbrev Cache := List (String × (List Property × Nat))

/-- cache.get: value stored under a key, or none when absent. -/
def cache_get : Cache → String → Option (List Property)
  | [], _ => none
  | e :: rest, key => if e.1 = key then some e.2.1 else cache_get rest key

/-- cache.delete: remove every entry under the key. -/
def cache_delete : Cache → String → Cache
  | [], _ => []
  | e :: rest, key =>
      if e.1 = key then cache_delete rest key
      else e :: cache_delete rest key

/-- cache.set: overwrite the key with a value and a timeout. -/
def cache_set (c : Cache) (key : String) (value : List Property)
    (timeout : Nat) : Cache :=
  (key, (value, timeout)) :: cache_delete c key

/-- The fixed collection key used throughout utils.py. -/
def cache_key : String := "all_properties"

/-- The projection applied by `.values(...)` in utils.py lines 49-55:
exactly the six named fields of each row. -/
def project_property (p : Property) : Property :=
  { id := p.id
    title := p.title
    description := p.description
    price := p.price
    location := p.location
    created_at := p.created_at }

/-- The database read on the miss path of get_all_properties:
`list(Property.objects.all().values(...))` — every row, projected,
in store order, with no filter and no slice. -/
def fetch_all_properties (store : List Property) : List Property :=
  store.map project_property

/-- Result of one get_all_properties call: the returned list, the cache
afterwards, and whether the database was queried on this call. -/
structure GetAllResult where
  result : List Property
  cache : Cache
  store_queried : Bool
deriving DecidableEq, Repr

/-- utils.get_all_properties: cache-aside read.  Looks up the fixed key;
on a hit returns the cached list unchanged; on a miss fetches from the
store, caches the result for 3600 seconds, and returns it. -/
def get_all_properties (c : Cache) (store : List Property) : GetAllResult :=
  match cache_get c cache_key with
  | some cached_properties =>
      { result := cached_properties, cache := c, store_queried := false }
  | none =>
      let properties_list := fetch_all_properties store
      { result := properties_list
        cache := cache_set c cache_key properties_list 3600
        store_queried := true }

/-- utils.invalidate_properties_cache: cache.delete on the fixed key. -/
def invalidate_properties_cache (c : Cache) : Cache :=
  cache_delete c cache_key

/-- The stats dictionary built by utils.get_cache_stats. -/
structure CacheStats where
  cache_key : String
  is_cached : Bool
  cached_count : Nat
  database_count : Nat
  cache_backend : String
  cache_timeout : String
deriving DecidableEq, Repr

/-- utils.get_cache_stats: a fresh cache lookup plus a fresh store
count.  cached_count mirrors the Python truthiness expression
`len(cached_data) if cached_data else 0` — an absent entry and an empty
cached list both give 0. -/
def get_cache_stats (c : Cache) (store : List Property) : CacheStats :=
  let cached_data := cache_get c cache_key
  { cache_key := cache_key
    is_cached := cached_data.isSome
    cached_count :=
      match cached_data with
      | some l => if l.isEmpty then 0 else l.length
      | none => 0
    database_count := store.length
    cache_backend := "Redis"
    cache_timeout := "1 hour (3600 seconds)" }

/-- The cache_info block of the list-handler response body. -/
structure CacheInfo where
  is_cached : Bool
  cache_backend : String
  cache_timeout : String
  cache_key : String
deriving DecidableEq, Repr

/-- The performance block of the list-handler response body. -/
structure Performance where
  data_source : String
  cache_hit : Bool
deriving DecidableEq, Repr

/-- The JSON body returned by views.property_list. -/
structure PropertyListResponse where
  properties : List Property
  count : Nat
  cache_info : CacheInfo
  performance : Performance
deriving DecidableEq, Repr

/-- views.property_list: read-through via get_all_properties, then a
stats call on the resulting cache, then response shaping.  Returns the
body and the cache afterwards. -/
def property_list (c : Cache) (store : List Property) :
    PropertyListResponse × Cache :=
  let r := get_all_properties c store
  let stats := get_cache_stats r.cache store
  ({ properties := r.result
     count := r.result.length
     cache_info :=
       { is_cached := stats.is_cached
         cache_backend := stats.cache_backend
         cache_timeout := stats.cache_timeout
         cache_key := stats.cache_key }
     performance :=
       { data_source :=
           if stats.is_cached then "Redis Cache" else "PostgreSQL Database"
         cache_hit := stats.is_cached } },
   r.cache)

/-- JSON body of the invalidate handler: the POST success envelope or
the method-rejection error body. -/
inductive InvalidateBody where
  | success (message action next_request : String)
  | error (error current_method : String)
deriving DecidableEq, Repr

/-- Result of one invalidate-handler call: body, HTTP status, and the
cache afterwards. -/
structure InvalidateHandlerResult where
  body : InvalidateBody
  status : Nat
  cache : Cache
deriving DecidableEq, Repr

/-- views.invalidate_cache: on POST, invalidate and return the success
envelope with status 200 (the JsonResponse default); on any other
method, return the 405 error body naming the method, touching nothing. -/
def invalidate_cache (method : String) (c : Cache) :
    InvalidateHandlerResult :=
  if method = "POST" then
    { body := InvalidateBody.success
        "Properties cache invalidated successfully"
        "cache_cleared"
        "will_fetch_from_database"
      status := 200
      cache := invalidate_properties_cache c }
  else
    { body := InvalidateBody.error
        "Only POST method allowed for cache invalidation"
        method
      status := 405
      cache := c }

/-- Cache state after n consecutive get_all_properties calls against a
fixed store, starting from cache c. -/
def run_gets (c : Cache) (store : List Property) : Nat → Cache
  | 0 => c
  | n + 1 => (get_all_properties (run_gets c store n) store).cache

/-- Sample record used to instantiate universally quantified theorems. -/
def sample_property (n : Nat) : Property :=
  { id := n
    title := "Test Property"
    description := "A sample listing"
    price := 100000
    location := "Lagos"
    created_at := n }

/-- A three-record store matching the spec scenario. -/
def sample_store : List Property :=
  [sample_property 1, sample_property 2, sample_property 3]

/-- A cache_set is visible to a subsequent cache_get on the same key. -/
theorem cache_get_set (c : Cache) (key : String) (v : List Property)
    (t : Nat) : cache_get (cache_set c key v t) key = some v := by
  simp [cache_set, cache_get]

/-- After cache_delete the key is absent. -/
theorem cache_get_delete (c : Cache) (key : String) :
    cache_get (cache_delete c key) key = none := by
  induction c with
  | nil => rfl
  | cons e rest ih =>
      by_cases h : e.1 = key <;> simp [cache_delete, cache_get, h, ih]

/-- Deleting a key that is absent leaves the cache unchanged. -/
theorem cache_delete_absent (c : Cache) (key : String)
    (h : cache_get c key = none) : cache_delete c key = c := by
  induction c with
  | nil => rfl
  | cons e rest ih =>
      by_cases he : e.1 = key
      · simp [cache_get, he] at h
      · simp [cache_get, he] at h
        simp [cache_delete, he, ih h]

/-- cache_delete is idempotent. -/
theorem cache_delete_idem (c : Cache) (key : String) :
    cache_delete (cache_delete c key) key = cache_delete c key :=
  cache_delete_absent _ _ (cache_get_delete c key)

/-- Hit path of get_all_properties: the cached value is returned, the
cache is untouched, the store is not queried. -/
theorem get_all_properties_hit (c : Cache) (store : List Property)
    (v : List Property) (h : cache_get c cache_key = some v) :
    get_all_properties c store =
      { result := v, cache := c, store_queried := false } := by
  simp [get_all_properties, h]

/-- Miss path of get_all_properties: the store is read, the result is
cached under the fixed key with timeout 3600, and returned. -/
theorem get_all_properties_miss (c : Cache) (store : List Property)
    (h : cache_get c cache_key = none) :
    get_all_properties c store =
      { result := fetch_all_properties store
        cache := cache_set c cache_key (fetch_all_properties store) 3600
        store_queried := true } := by
  simp [get_all_properties, h]

/-- After any get_all_properties call the fixed key holds the returned
list. -/
theorem get_all_properties_cache_present (c : Cache)
    (store : List Property) :
    cache_get (get_all_properties c store).cache cache_key =
      some (get_all_properties c store).result := by
  cases h : cache_get c cache_key with
  | some v => simp [get_all_properties_hit c store v h, h]
  | none => simp [get_all_properties_miss c store h, cache_get_set]

/-- From the first call on, the cache state of a run of
get_all_properties calls is frozen at the state after the first call. -/
theorem run_gets_stable (c : Cache) (store : List Property) (n : Nat)
    (hn : 1 ≤ n) :
    run_gets c store n = (get_all_properties c store).cache := by
  induction n with
  | zero => omega
  | succ m ih =>
      by_cases hm : 1 ≤ m
      · have hstep : run_gets c store (m + 1) =
            (get_all_properties (get_all_properties c store).cache
              store).cache := by
          simp [run_gets, ih hm]
        rw [hstep, get_all_properties_hit _ store _
          (get_all_properties_cache_present c store)]
      · have hm0 : m = 0 := by omega
        subst hm0
        rfl

/-- The projection keeps each row unchanged: the record type has
exactly the six projected fields. -/
theorem project_property_id (p : Property) : project_property p = p :=
  rfl

/-- The truthiness count in get_cache_stats equals the list length. -/
theorem truthy_length (l : List Property) :
    (if l.isEmpty then 0 else l.length) = l.length := by
  cases l <;> simp

/-- Projecting the six fields of every row returns the rows unchanged:
the record carries exactly those fields. -/
theorem fetch_all_properties_eq (store : List Property) :
    fetch_all_properties store = store := by
  induction store with
  | nil => rfl
  | cons p rest ih =>
      simp [fetch_all_properties] at ih ⊢
      exact ⟨rfl, ih⟩

/-- The list handler on a warm cache: the cached list is served, the
response reports a cache hit, and the cache is unchanged. -/
theorem property_list_warm (c : Cache) (store : List Property)
    (v : List Property) (h : cache_get c cache_key = some v) :
    property_list c store =
      ({ properties := v
         count := v.length
         cache_info :=
           { is_cached := true
             cache_backend := "Redis"
             cache_timeout := "1 hour (3600 seconds)"
             cache_key := cache_key }
         performance :=
           { data_source := "Redis Cache", cache_hit := true } },
       c) := by
  simp [property_list, get_all_properties_hit c store v h,
    get_cache_stats, h]

/-- Claim C1: for every cache state, get_all_properties follows the
cache-aside algorithm — on a hit it returns the cached sequence
unchanged without consulting the store; on a miss it queries the store,
caches the result under the fixed key with a 3600-second TTL, and
returns that same result. -/
theorem claim_C1 (c : Cache) (store : List Property) :
    (∀ v, cache_get c cache_key = some v →
      get_all_properties c store =
        { result := v, cache := c, store_queried := false }) ∧
    (cache_get c cache_key = none →
      get_all_properties c store =
        { result := fetch_all_properties store
          cache := cache_set c cache_key (fetch_all_properties store) 3600
          store_queried := true }) :=
  ⟨fun v h => get_all_properties_hit c store v h,
   fun h => get_all_properties_miss c store h⟩

/-- Witness for claim C1 at a concrete hit state and a concrete miss
state. -/
theorem claim_C1_witness :
    (get_all_properties
        [(cache_key, ([sample_property 1], 3600))] sample_store =
      { result := [sample_property 1]
        cache := [(cache_key, ([sample_property 1], 3600))]
        store_queried := false }) ∧
    (get_all_properties [] sample_store =
      { result := fetch_all_properties sample_store
        cache :=
          cache_set [] cache_key (fetch_all_properties sample_store) 3600
        store_queried := true }) :=
  ⟨(claim_C1 [(cache_key, ([sample_property 1], 3600))] sample_store).1
      [sample_property 1] (by decide),
   (claim_C1 [] sample_store).2 (by decide)⟩

/-- Claim C2: the invalidate handler returns 405 with the fixed error
body naming the method for every non-POST request, and on POST
invalidates the cache and returns the success envelope with message,
action, and next_request fields and status 200. -/
theorem claim_C2 (method : String) (c : Cache) :
    (method ≠ "POST" → invalidate_cache method c =
      { body := InvalidateBody.error
          "Only POST method allowed for cache invalidation" method
        status := 405
        cache := c }) ∧
    invalidate_cache "POST" c =
      { body := InvalidateBody.success
          "Properties cache invalidated successfully"
          "cache_cleared"
          "will_fetch_from_database"
        status := 200
        cache := invalidate_properties_cache c } := by
  constructor
  · intro h
    simp [invalidate_cache, h]
  · simp [invalidate_cache]

/-- Witness for claim C2: a GET to the invalidate route on an empty
cache. -/
theorem claim_C2_witness :
    invalidate_cache "GET" [] =
      { body := InvalidateBody.error
          "Only POST method allowed for cache invalidation" "GET"
        status := 405
        cache := [] } :=
  (claim_C2 "GET" []).1 (by decide)

/-- Claim C4: with no intervening invalidation or expiry, every
get_all_properties call after the first returns the same result as the
first and does not query the store. -/
theorem claim_C4 (c : Cache) (store : List Property) (n : Nat)
    (hn : 1 ≤ n) :
    (get_all_properties (run_gets c store n) store).result =
      (get_all_properties c store).result ∧
    (get_all_properties (run_gets c store n) store).store_queried =
      false := by
  rw [run_gets_stable c store n hn,
    get_all_properties_hit _ store _
      (get_all_properties_cache_present c store)]
  exact ⟨rfl, rfl⟩

/-- Witness for claim C4: the second call on an initially empty cache. -/
theorem claim_C4_witness :
    (get_all_properties (run_gets [] sample_store 1) sample_store).result =
      (get_all_properties [] sample_store).result ∧
    (get_all_properties (run_gets [] sample_store 1)
        sample_store).store_queried = false :=
  claim_C4 [] sample_store 1 (by omega)

/-- Claim C5: invalidation deletes the fixed key unconditionally,
deleting an absent key is a no-op, and two consecutive POSTs to the
invalidate handler produce the same success response and the same final
cache. -/
theorem claim_C5 (c : Cache) :
    invalidate_properties_cache c = cache_delete c cache_key ∧
    cache_get (invalidate_properties_cache c) cache_key = none ∧
    (cache_get c cache_key = none → invalidate_properties_cache c = c) ∧
    (invalidate_cache "POST" (invalidate_cache "POST" c).cache).body =
      (invalidate_cache "POST" c).body ∧
    (invalidate_cache "POST" (invalidate_cache "POST" c).cache).status =
      (invalidate_cache "POST" c).status ∧
    (invalidate_cache "POST" (invalidate_cache "POST" c).cache).cache =
      (invalidate_cache "POST" c).cache := by
  refine ⟨rfl, cache_get_delete c cache_key,
    cache_delete_absent c cache_key, ?_, ?_, ?_⟩
  · simp [invalidate_cache]
  · simp [invalidate_cache]
  · simp [invalidate_cache, invalidate_properties_cache, cache_delete_idem]

/-- Witness for claim C5: deleting the key from an empty cache is a
no-op. -/
theorem claim_C5_witness :
    invalidate_properties_cache ([] : Cache) = [] :=
  (claim_C5 []).2.2.1 (by decide)

/-- Claim C9: after any successful get_all_properties call the cache
entry for the fixed key is present and holds the returned list. -/
theorem claim_C9 (c : Cache) (store : List Property) :
    cache_get (get_all_properties c store).cache cache_key =
      some (get_all_properties c store).result :=
  get_all_properties_cache_present c store

/-- Claim C10: a non-POST request to the invalidate handler leaves the
cache state completely unchanged. -/
theorem claim_C10 (method : String) (c : Cache)
    (h : method ≠ "POST") :
    (invalidate_cache method c).cache = c := by
  simp [invalidate_cache, h]

/-- Witness for claim C10: a rejected GET leaves a populated cache
intact. -/
theorem claim_C10_witness :
    (invalidate_cache "GET"
        [(cache_key, ([sample_property 2], 3600))]).cache =
      [(cache_key, ([sample_property 2], 3600))] :=
  claim_C10 "GET" [(cache_key, ([sample_property 2], 3600))] (by decide)

/-- Counterexample to claim C3 as stated: with a 3-record store, the
second list-handler call reports data_source equal to the string Redis
Cache, not the string Cache. -/
theorem claim_C3_counterexample :
    ((property_list (property_list [] sample_store).2
        sample_store).1.cache_info.is_cached = true) ∧
    ((property_list (property_list [] sample_store).2
        sample_store).1.performance.data_source = "Redis Cache") ∧
    ((property_list (property_list [] sample_store).2
        sample_store).1.performance.data_source ≠ "Cache") := by
  decide

/-- Claim C3 (amended: the data_source string on a cache hit is Redis
Cache, not Cache): for any store of 3 records, after a first
list-handler call populates the cache, a second call returns the same
3 records with is_cached true and data_source Redis Cache. -/
theorem claim_C3 (store : List Property) (h3 : store.length = 3)
    (c : Cache) (hc : cache_get c cache_key = none) :
    (property_list (property_list c store).2 store).1.properties =
      (property_list c store).1.properties ∧
    (property_list (property_list c store).2 store).1.count = 3 ∧
    (property_list (property_list c store).2
        store).1.cache_info.is_cached = true ∧
    (property_list (property_list c store).2
        store).1.performance.data_source = "Redis Cache" := by
  have hmiss := get_all_properties_miss c store hc
  have hcache1 : (property_list c store).2 =
      cache_set c cache_key (fetch_all_properties store) 3600 := by
    simp [property_list, hmiss]
  have hprops1 : (property_list c store).1.properties =
      fetch_all_properties store := by
    simp [property_list, hmiss]
  have hwarm := property_list_warm
    (cache_set c cache_key (fetch_all_properties store) 3600) store
    (fetch_all_properties store)
    (cache_get_set c cache_key (fetch_all_properties store) 3600)
  rw [hcache1, hwarm]
  refine ⟨by rw [hprops1], ?_, rfl, rfl⟩
  rw [fetch_all_properties_eq, h3]

/-- Witness for the amended claim C3 at the 3-record sample store and
an empty cache. -/
theorem claim_C3_witness :
    (property_list (property_list [] sample_store).2
        sample_store).1.properties =
      (property_list [] sample_store).1.properties ∧
    (property_list (property_list [] sample_store).2
        sample_store).1.count = 3 ∧
    (property_list (property_list [] sample_store).2
        sample_store).1.cache_info.is_cached = true ∧
    (property_list (property_list [] sample_store).2
        sample_store).1.performance.data_source = "Redis Cache" :=
  claim_C3 sample_store (by decide) [] (by decide)

/-- Claim C6: cached_count equals the length of the cached sequence, or
0 when the entry is absent, and immediately after a fresh read-through
cached_count does not exceed database_count. -/
theorem claim_C6 (c : Cache) (store : List Property) :
    (∀ l, cache_get c cache_key = some l →
      (get_cache_stats c store).cached_count = l.length) ∧
    (cache_get c cache_key = none →
      (get_cache_stats c store).cached_count = 0) ∧
    (cache_get c cache_key = none →
      (get_cache_stats (get_all_properties c store).cache
          store).cached_count ≤
        (get_cache_stats (get_all_properties c store).cache
          store).database_count) := by
  refine ⟨?_, ?_, ?_⟩
  · intro l h
    cases l <;> simp [get_cache_stats, h]
  · intro h
    simp [get_cache_stats, h]
  · intro h
    rw [get_all_properties_miss c store h]
    simp [get_cache_stats, cache_get_set, fetch_all_properties_eq]
    split <;> simp

/-- Witness for claim C6: a populated cache, an empty cache, and a
read-through from the empty cache. -/
theorem claim_C6_witness :
    (get_cache_stats [(cache_key, ([sample_property 1], 3600))]
        sample_store).cached_count = 1 ∧
    (get_cache_stats [] sample_store).cached_count = 0 ∧
    (get_cache_stats (get_all_properties [] sample_store).cache
        sample_store).cached_count ≤
      (get_cache_stats (get_all_properties [] sample_store).cache
        sample_store).database_count :=
  ⟨(claim_C6 [(cache_key, ([sample_property 1], 3600))] sample_store).1
      [sample_property 1] (by decide),
   (claim_C6 [] sample_store).2.1 (by decide),
   (claim_C6 [] sample_store).2.2 (by decide)⟩

/-- Claim C7: the stats call of the list handler runs after the
populating read-through, so a request from a cold cache with a
non-empty store still reports is_cached true and the cache data source
even though the store was queried on that very call. -/
theorem claim_C7 (c : Cache) (store : List Property)
    (hc : cache_get c cache_key = none) (_hs : store ≠ []) :
    (property_list c store).1.cache_info.is_cached = true ∧
    (property_list c store).1.performance.data_source = "Redis Cache" ∧
    (property_list c store).1.performance.cache_hit = true ∧
    (get_all_properties c store).store_queried = true := by
  have hr := get_all_properties_miss c store hc
  simp [property_list, hr, get_cache_stats, cache_get_set]

/-- Witness for claim C7: a cold cache and the non-empty sample store. -/
theorem claim_C7_witness :
    (property_list [] sample_store).1.cache_info.is_cached = true ∧
    (property_list [] sample_store).1.performance.data_source =
      "Redis Cache" ∧
    (property_list [] sample_store).1.performance.cache_hit = true ∧
    (get_all_properties [] sample_store).store_queried = true :=
  claim_C7 [] sample_store (by decide) (by decide)

/-- Claim C8: the miss-path store read projects exactly the six fields
of every row, applies no filtering and no pagination, and preserves the
order the store returns. -/
theorem claim_C8 (store : List Property) :
    fetch_all_properties store = store.map project_property ∧
    (∀ p, project_property p =
      { id := p.id
        title := p.title
        description := p.description
        price := p.price
        location := p.location
        created_at := p.created_at }) ∧
    (fetch_all_properties store).length = store.length ∧
    fetch_all_properties store = store := by
  refine ⟨rfl, fun p => rfl, ?_, fetch_all_properties_eq store⟩
  simp [fetch_all_properties]

end PropertyListings
